import Mathlib

/-
  Verification of the school-back core logic of the repository: the grading
  engine (StudentReportResource) and the fee accounting engine
  (FeeStructureResource, FeePaymentResource) from src/app.py, over the
  relational rows of src/models.py.

  Numeric columns (Float in the schema) are modelled as rationals; the
  arithmetic performed by the handlers is sums, differences and a single
  division, stated here exactly.  Rows are Lean structures, tables are
  lists, and SQLAlchemy queries (`get` by primary key,
  `filter_by(...).first()`, `filter(...)`, inner joins) become the
  corresponding list operations.
-/

namespace SchoolBack

/-- The grade bands of `StudentReportResource.calculate_grade`
(src/app.py lines 571-599): null propagates, otherwise a chain of
`>=` comparisons from 80 down to 30, with "E" as the final `else`. -/
def calculate_grade (percentage : Option ℚ) : Option String :=
  match percentage with
  | none => none
  | some p =>
    if p ≥ 80 then some "A"
    else if p ≥ 75 then some "A-"
    else if p ≥ 70 then some "B+"
    else if p ≥ 65 then some "B"
    else if p ≥ 60 then some "B-"
    else if p ≥ 55 then some "C+"
    else if p ≥ 50 then some "C"
    else if p ≥ 45 then some "C-"
    else if p ≥ 40 then some "D+"
    else if p ≥ 35 then some "D"
    else if p ≥ 30 then some "D-"
    else some "E"

/-- Spec-side table of the 12 bands: descending thresholds paired with
their letter grade; "E" is the catch-all below 30. -/
def gradeBands : List (ℚ × String) :=
  [(80, "A"), (75, "A-"), (70, "B+"), (65, "B"), (60, "B-"), (55, "C+"),
   (50, "C"), (45, "C-"), (40, "D+"), (35, "D"), (30, "D-")]

/-- First match over a descending threshold table, "E" when nothing
matches. -/
def firstBand : List (ℚ × String) → ℚ → String
  | [], _ => "E"
  | b :: rest, p => if p ≥ b.1 then b.2 else firstBand rest p

/-- Spec-side selection: scan the descending threshold table, first
match wins, "E" when nothing matches. -/
def bandGrade (p : ℚ) : String := firstBand gradeBands p

/-- The 12 possible letter grades. -/
def gradeLetters : List String :=
  ["A", "A-", "B+", "B", "B-", "C+", "C", "C-", "D+", "D", "D-", "E"]

/-- Quality rank of a letter grade, E lowest and A highest. -/
def gradeRank (g : String) : ℕ :=
  if g = "A" then 11 else if g = "A-" then 10 else if g = "B+" then 9
  else if g = "B" then 8 else if g = "B-" then 7 else if g = "C+" then 6
  else if g = "C" then 5 else if g = "C-" then 4 else if g = "D+" then 3
  else if g = "D" then 2 else if g = "D-" then 1 else 0

/-- Indicator that x clears threshold t. -/
def indGe (x t : ℚ) : ℕ := if x ≥ t then 1 else 0

/-- Band index of x, written additively as the number of thresholds
cleared. -/
def rankAlt (x : ℚ) : ℕ :=
  indGe x 30 + indGe x 35 + indGe x 40 + indGe x 45 + indGe x 50 + indGe x 55 +
  indGe x 60 + indGe x 65 + indGe x 70 + indGe x 75 + indGe x 80

lemma indGe_mono {x y : ℚ} (h : x ≤ y) (t : ℚ) : indGe x t ≤ indGe y t := by
  unfold indGe
  by_cases hx : x ≥ t
  · rw [if_pos hx, if_pos (le_trans hx h)]
  · rw [if_neg hx]
    exact Nat.zero_le _

lemma rankAlt_mono {x y : ℚ} (h : x ≤ y) : rankAlt x ≤ rankAlt y := by
  unfold rankAlt
  repeat apply Nat.add_le_add
  all_goals exact indGe_mono h _

lemma grade_master (x : ℚ) :
    calculate_grade (some x) = some (bandGrade x) ∧
    bandGrade x ∈ gradeLetters ∧
    gradeRank (bandGrade x) = rankAlt x := by
  by_cases h80 : x ≥ 80
  · have l75 : x ≥ 75 := by linarith
    have l70 : x ≥ 70 := by linarith
    have l65 : x ≥ 65 := by linarith
    have l60 : x ≥ 60 := by linarith
    have l55 : x ≥ 55 := by linarith
    have l50 : x ≥ 50 := by linarith
    have l45 : x ≥ 45 := by linarith
    have l40 : x ≥ 40 := by linarith
    have l35 : x ≥ 35 := by linarith
    have l30 : x ≥ 30 := by linarith
    refine ⟨?_, ?_, ?_⟩ <;>
      simp [calculate_grade, bandGrade, gradeBands, firstBand, gradeLetters, gradeRank,
        rankAlt, indGe, *]
  by_cases h75 : x ≥ 75
  · have l70 : x ≥ 70 := by linarith
    have l65 : x ≥ 65 := by linarith
    have l60 : x ≥ 60 := by linarith
    have l55 : x ≥ 55 := by linarith
    have l50 : x ≥ 50 := by linarith
    have l45 : x ≥ 45 := by linarith
    have l40 : x ≥ 40 := by linarith
    have l35 : x ≥ 35 := by linarith
    have l30 : x ≥ 30 := by linarith
    refine ⟨?_, ?_, ?_⟩ <;>
      simp [calculate_grade, bandGrade, gradeBands, firstBand, gradeLetters, gradeRank,
        rankAlt, indGe, *]
  by_cases h70 : x ≥ 70
  · have l65 : x ≥ 65 := by linarith
    have l60 : x ≥ 60 := by linarith
    have l55 : x ≥ 55 := by linarith
    have l50 : x ≥ 50 := by linarith
    have l45 : x ≥ 45 := by linarith
    have l40 : x ≥ 40 := by linarith
    have l35 : x ≥ 35 := by linarith
    have l30 : x ≥ 30 := by linarith
    refine ⟨?_, ?_, ?_⟩ <;>
      simp [calculate_grade, bandGrade, gradeBands, firstBand, gradeLetters, gradeRank,
        rankAlt, indGe, *]
  by_cases h65 : x ≥ 65
  · have l60 : x ≥ 60 := by linarith
    have l55 : x ≥ 55 := by linarith
    have l50 : x ≥ 50 := by linarith
    have l45 : x ≥ 45 := by linarith
    have l40 : x ≥ 40 := by linarith
    have l35 : x ≥ 35 := by linarith
    have l30 : x ≥ 30 := by linarith
    refine ⟨?_, ?_, ?_⟩ <;>
      simp [calculate_grade, bandGrade, gradeBands, firstBand, gradeLetters, gradeRank,
        rankAlt, indGe, *]
  by_cases h60 : x ≥ 60
  · have l55 : x ≥ 55 := by linarith
    have l50 : x ≥ 50 := by linarith
    have l45 : x ≥ 45 := by linarith
    have l40 : x ≥ 40 := by linarith
    have l35 : x ≥ 35 := by linarith
    have l30 : x ≥ 30 := by linarith
    refine ⟨?_, ?_, ?_⟩ <;>
      simp [calculate_grade, bandGrade, gradeBands, firstBand, gradeLetters, gradeRank,
        rankAlt, indGe, *]
  by_cases h55 : x ≥ 55
  · have l50 : x ≥ 50 := by linarith
    have l45 : x ≥ 45 := by linarith
    have l40 : x ≥ 40 := by linarith
    have l35 : x ≥ 35 := by linarith
    have l30 : x ≥ 30 := by linarith
    refine ⟨?_, ?_, ?_⟩ <;>
      simp [calculate_grade, bandGrade, gradeBands, firstBand, gradeLetters, gradeRank,
        rankAlt, indGe, *]
  by_cases h50 : x ≥ 50
  · have l45 : x ≥ 45 := by linarith
    have l40 : x ≥ 40 := by linarith
    have l35 : x ≥ 35 := by linarith
    have l30 : x ≥ 30 := by linarith
    refine ⟨?_, ?_, ?_⟩ <;>
      simp [calculate_grade, bandGrade, gradeBands, firstBand, gradeLetters, gradeRank,
        rankAlt, indGe, *]
  by_cases h45 : x ≥ 45
  · have l40 : x ≥ 40 := by linarith
    have l35 : x ≥ 35 := by linarith
    have l30 : x ≥ 30 := by linarith
    refine ⟨?_, ?_, ?_⟩ <;>
      simp [calculate_grade, bandGrade, gradeBands, firstBand, gradeLetters, gradeRank,
        rankAlt, indGe, *]
  by_cases h40 : x ≥ 40
  · have l35 : x ≥ 35 := by linarith
    have l30 : x ≥ 30 := by linarith
    refine ⟨?_, ?_, ?_⟩ <;>
      simp [calculate_grade, bandGrade, gradeBands, firstBand, gradeLetters, gradeRank,
        rankAlt, indGe, *]
  by_cases h35 : x ≥ 35
  · have l30 : x ≥ 30 := by linarith
    refine ⟨?_, ?_, ?_⟩ <;>
      simp [calculate_grade, bandGrade, gradeBands, firstBand, gradeLetters, gradeRank,
        rankAlt, indGe, *]
  by_cases h30 : x ≥ 30
  · refine ⟨?_, ?_, ?_⟩ <;>
      simp [calculate_grade, bandGrade, gradeBands, firstBand, gradeLetters, gradeRank,
        rankAlt, indGe, *]
  refine ⟨?_, ?_, ?_⟩ <;>
    simp [calculate_grade, bandGrade, gradeBands, firstBand, gradeLetters, gradeRank,
      rankAlt, indGe, *]

/-- Claim C3: calculate_grade returns null on null input, and on any
(unclamped) rational input returns exactly the first-match grade of the
descending 12-band threshold table, a value among the 12 letters. -/
theorem calculate_grade_bands :
    calculate_grade none = none ∧
    (∀ x : ℚ, calculate_grade (some x) = some (bandGrade x)) ∧
    (∀ x : ℚ, ∃ g, calculate_grade (some x) = some g ∧ g ∈ gradeLetters) := by
  refine ⟨rfl, fun x => (grade_master x).1, fun x => ?_⟩
  exact ⟨bandGrade x, (grade_master x).1, (grade_master x).2.1⟩

/-- Claim C7: calculate_grade is monotone in grade quality (under the
rank E < D- < D < D+ < C- < C < C+ < B- < B < B+ < A- < A), and the
banding is gapless at the 80 and 30 boundaries: 79 is A-, 80 is A,
29 is E, 30 is D-. -/
theorem calculate_grade_monotone :
    (∀ x y : ℚ, x ≤ y → ∀ gx gy, calculate_grade (some x) = some gx →
      calculate_grade (some y) = some gy → gradeRank gx ≤ gradeRank gy) ∧
    calculate_grade (some 79) = some "A-" ∧
    calculate_grade (some 80) = some "A" ∧
    calculate_grade (some 29) = some "E" ∧
    calculate_grade (some 30) = some "D-" := by
  refine ⟨?_, by decide, by decide, by decide, by decide⟩
  intro x y h gx gy hx hy
  have mx := grade_master x
  have my := grade_master y
  have ex : bandGrade x = gx := by
    have h2 := mx.1.symm.trans hx
    exact (Option.some.injEq _ _).mp h2
  have ey : bandGrade y = gy := by
    have h2 := my.1.symm.trans hy
    exact (Option.some.injEq _ _).mp h2
  rw [← ex, ← ey, mx.2.2, my.2.2]
  exact rankAlt_mono h

/-- Witness for C7: monotonicity applied at 40 ≤ 60, whose grades
evaluate to D+ and B-. -/
theorem calculate_grade_monotone_witness : gradeRank "D+" ≤ gradeRank "B-" :=
  calculate_grade_monotone.1 40 60 (by norm_num) "D+" "B-" (by decide) (by decide)

/-
  Data model (src/models.py).  One structure per table; only columns are
  kept (relationships are recovered by joining on the foreign keys, as
  the handlers do).  Dates travel through the handlers as "YYYY-MM-DD"
  strings and are never computed with, so they stay strings here.
-/

/-- A row of the classes table. -/
structure ClassRow where
  id : ℕ
  class_name : String
  teacher_id : Option ℕ
deriving DecidableEq

/-- A row of the students table (models.py lines 36-52). -/
structure StudentRow where
  id : ℕ
  name : String
  date_of_birth : String
  gender : String
  date_of_admission : String
  class_id : ℕ
  nemis_no : Option ℤ
  assessment_no : Option ℤ
  pickup_location_id : Option ℕ
deriving DecidableEq

/-- A row of the subjects table. -/
structure SubjectRow where
  id : ℕ
  subject_name : String
deriving DecidableEq

/-- A row of the score_grades table: score is nullable, max_score has
default 100.0 and is always supplied by the request parser. -/
structure ScoreGradeRow where
  id : ℕ
  student_id : ℕ
  subject_id : Option ℕ
  test_id : Option ℕ
  score : Option ℚ
  max_score : ℚ
  term : Option String
  year : Option ℤ
deriving DecidableEq

/-- A row of the fee_structures table (models.py lines 221-232): six
components plus the stored total_fee column. -/
structure FeeStructureRow where
  id : ℕ
  class_id : ℕ
  tuition_fee : ℚ
  books_fee : ℚ
  miscellaneous_fee : ℚ
  boarding_fee : ℚ
  prize_giving_fee : ℚ
  exam_fee : ℚ
  total_fee : ℚ
deriving DecidableEq

/-- A row of the pickup_locations table. -/
structure PickupLocationRow where
  id : ℕ
  location_name : String
  transport_fee : ℚ
deriving DecidableEq

/-- A row of the fee_payments table (models.py lines 282-294); balance
is the snapshot stored at write time. -/
structure FeePaymentRow where
  id : ℕ
  student_id : ℕ
  amount : ℚ
  payment_date : String
  term : String
  year : ℤ
  method : String
  balance : ℚ
deriving DecidableEq

/-- The relational store: one list per table, in insertion order. -/
structure Store where
  classes : List ClassRow
  students : List StudentRow
  subjects : List SubjectRow
  score_grades : List ScoreGradeRow
  fee_structures : List FeeStructureRow
  pickup_locations : List PickupLocationRow
  fee_payments : List FeePaymentRow
deriving DecidableEq

/-- Outcome of a handler, mirroring the HTTP responses used by
app.py: 200/201 payload, 404 message, 400 message, or an unhandled
exception (500). -/
inductive ApiResult (α : Type) where
  | ok : α → ApiResult α
  | notFound : String → ApiResult α
  | badRequest : String → ApiResult α
  | internalError : ApiResult α
deriving DecidableEq

/-- The one computation failure of the fee engine: the ValueError
raised by calculate_grand_total when the class has no fee structure. -/
inductive FeeError where
  | noFeeStructure
deriving DecidableEq

/-- The message carried by the ValueError in app.py line 879. -/
def FeeError.message : FeeError → String
  | .noFeeStructure => "Fee structure not found for the student\x27s class."

/-
  Fee accounting engine (FeePaymentResource, src/app.py lines 870-1028).
-/

/-- Embeds `FeePaymentResource.calculate_grand_total` (app.py lines 872-897):
look up the first FeeStructure with the class_id of the student, raising
when absent; sum the six components; then, if the pickup_location_id
is truthy (non-null and non-zero) and the referenced PickupLocation
exists, add its transport_fee. -/
def calculate_grand_total (st : Store) (student : StudentRow) : Except FeeError ℚ :=
  match st.fee_structures.find? (fun f => f.class_id == student.class_id) with
  | none => .error .noFeeStructure
  | some fs =>
    let base := fs.tuition_fee + fs.books_fee + fs.miscellaneous_fee +
      fs.boarding_fee + fs.prize_giving_fee + fs.exam_fee
    match student.pickup_location_id with
    | none => .ok base
    | some pid =>
      if pid = 0 then .ok base
      else
        match st.pickup_locations.find? (fun p => p.id == pid) with
        | some pl => .ok (base + pl.transport_fee)
        | none => .ok base

/-- Sum of FeePayment.amount over the rows of the student (the
`func.sum(...) ... scalar() or 0` aggregate of app.py line 907). -/
def totalPaid (st : Store) (sid : ℕ) : ℚ :=
  ((st.fee_payments.filter (fun p => p.student_id == sid)).map
    (fun p => p.amount)).sum

/-- Embeds `FeePaymentResource.calculate_balance` (app.py lines 899-913):
grand total minus (total already paid plus the new payment amount). -/
def calculate_balance (st : Store) (student : StudentRow) (new_payment_amount : ℚ) :
    Except FeeError ℚ :=
  match calculate_grand_total st student with
  | .error e => .error e
  | .ok grand_total => .ok (grand_total - (totalPaid st student.id + new_payment_amount))

/-- Body of a fee-payment POST.  A request whose amount, date, term,
year or method is absent fails outside the modelled logic (KeyError or
a NOT NULL violation), so the fields are taken as present. -/
structure FeePaymentPostRequest where
  student_id : ℕ
  amount : ℚ
  payment_date : String
  term : String
  year : ℤ
  method : String
deriving DecidableEq

/-- Embeds `FeePaymentResource.post` (app.py lines 954-982): validate the
student, compute the balance including the new amount (400 on
ValueError, before any write), then insert the row with the balance
snapshot.  The fresh primary key is passed in as newId. -/
def feePaymentPost (st : Store) (newId : ℕ) (d : FeePaymentPostRequest) :
    ApiResult FeePaymentRow × Store :=
  match st.students.find? (fun s => s.id == d.student_id) with
  | none => (.notFound "Student not found", st)
  | some student =>
    match calculate_balance st student d.amount with
    | .error e => (.badRequest e.message, st)
    | .ok balance =>
      let row : FeePaymentRow :=
        { id := newId, student_id := student.id, amount := d.amount,
          payment_date := d.payment_date, term := d.term, year := d.year,
          method := d.method, balance := balance }
      (.ok row, { st with fee_payments := st.fee_payments ++ [row] })

/-- Body of a fee-payment PUT: every field optional, absent fields keep
the stored value (`data.get(k, current)`). -/
structure FeePaymentPutRequest where
  amount : Option ℚ
  payment_date : Option String
  term : Option String
  year : Option ℤ
  method : Option String
deriving DecidableEq

/-- The field update of `FeePaymentResource.put` before the first
commit: amount, payment_date, term, year, method; balance untouched. -/
def updatePayment (fp : FeePaymentRow) (d : FeePaymentPutRequest) : FeePaymentRow :=
  { fp with amount := d.amount.getD fp.amount,
            payment_date := d.payment_date.getD fp.payment_date,
            term := d.term.getD fp.term,
            year := d.year.getD fp.year,
            method := d.method.getD fp.method }

/-- Write back the row with primary key pid. -/
def setPayment (l : List FeePaymentRow) (pid : ℕ) (fp : FeePaymentRow) :
    List FeePaymentRow :=
  l.map (fun p => if p.id == pid then fp else p)

/-- Embeds `FeePaymentResource.put` (app.py lines 984-1010): 404 when the row
is absent; otherwise the field updates are committed first, then the
balance is recomputed with calculate_balance(student, 0) over the
already-updated table — a ValueError at that point returns 400 with the
field updates already stored.  On success the new balance is committed
as a second write. -/
def feePaymentPut (st : Store) (pid : ℕ) (d : FeePaymentPutRequest) :
    ApiResult FeePaymentRow × Store :=
  match st.fee_payments.find? (fun p => p.id == pid) with
  | none => (.notFound "Fee payment not found", st)
  | some fp =>
    let fp1 := updatePayment fp d
    let st1 : Store := { st with fee_payments := setPayment st.fee_payments pid fp1 }
    match st1.students.find? (fun s => s.id == fp1.student_id) with
    | none => (.internalError, st1)
    | some student =>
      match calculate_balance st1 student 0 with
      | .error e => (.badRequest e.message, st1)
      | .ok b =>
        let fp2 := { fp1 with balance := b }
        (.ok fp2, { st1 with fee_payments := setPayment st1.fee_payments pid fp2 })

/-- Embeds `FeePaymentResource.delete` (app.py lines 1012-1028): 404 when the
row is absent; otherwise the row is deleted and committed, then the
balance is recomputed on the remaining rows — a ValueError there
returns 400 with the row already gone; on success the fresh balance is
returned in the response body and written nowhere. -/
def feePaymentDelete (st : Store) (pid : ℕ) : ApiResult ℚ × Store :=
  match st.fee_payments.find? (fun p => p.id == pid) with
  | none => (.notFound "Fee payment not found", st)
  | some fp =>
    let st1 : Store := { st with fee_payments := st.fee_payments.eraseP (fun p => p.id == pid) }
    match st1.students.find? (fun s => s.id == fp.student_id) with
    | none => (.internalError, st1)
    | some student =>
      match calculate_balance st1 student 0 with
      | .error e => (.badRequest e.message, st1)
      | .ok b => (.ok b, st1)

/-- Embeds `StudentResource.delete` (app.py lines 149-160) together with the
`cascade="all, delete-orphan"` rules on Student.scores and
Student.fee_payments (models.py lines 50-51): deleting a student also
deletes every ScoreGrade and FeePayment row owned by it. -/
def studentDelete (st : Store) (sid : ℕ) : ApiResult String × Store :=
  match st.students.find? (fun s => s.id == sid) with
  | none => (.notFound "Student not found", st)
  | some _ =>
    (.ok "Student deleted successfully",
     { st with students := st.students.eraseP (fun s => s.id == sid),
               score_grades := st.score_grades.filter (fun g => !(g.student_id == sid)),
               fee_payments := st.fee_payments.filter (fun p => !(p.student_id == sid)) })

/-- Body of a fee-structure POST/PUT: class_id plus six optional
components (`data.get(k, 0.0)` on create, `data.get(k, current)` on
update). -/
structure FeeData where
  class_id : Option ℕ
  tuition_fee : Option ℚ
  books_fee : Option ℚ
  miscellaneous_fee : Option ℚ
  boarding_fee : Option ℚ
  prize_giving_fee : Option ℚ
  exam_fee : Option ℚ
deriving DecidableEq

/-- The six components of a request in source order, absent ones as
0.0, exactly the list summed by calculate_total_fee. -/
def componentList (d : FeeData) : List ℚ :=
  [d.tuition_fee.getD 0, d.books_fee.getD 0, d.miscellaneous_fee.getD 0,
   d.boarding_fee.getD 0, d.prize_giving_fee.getD 0, d.exam_fee.getD 0]

/-- Embeds `FeeStructureResource.calculate_total_fee` (app.py lines 716-725):
the sum of the six components, missing ones defaulting to 0.0. -/
def calculate_total_fee (d : FeeData) : ℚ :=
  (componentList d).sum

/-- The FeeData with every component missing, the empty request body. -/
def FeeData.empty : FeeData :=
  { class_id := none, tuition_fee := none, books_fee := none,
    miscellaneous_fee := none, boarding_fee := none,
    prize_giving_fee := none, exam_fee := none }

/-- Embeds `FeeStructureResource.post` (app.py lines 747-767): store each
component with default 0.0 and the computed total_fee.  class_id is
taken as present (a null class_id fails the NOT NULL constraint). -/
def feeStructurePost (st : Store) (newId : ℕ) (cid : ℕ) (d : FeeData) :
    FeeStructureRow × Store :=
  let row : FeeStructureRow :=
    { id := newId, class_id := cid,
      tuition_fee := d.tuition_fee.getD 0, books_fee := d.books_fee.getD 0,
      miscellaneous_fee := d.miscellaneous_fee.getD 0,
      boarding_fee := d.boarding_fee.getD 0,
      prize_giving_fee := d.prize_giving_fee.getD 0,
      exam_fee := d.exam_fee.getD 0,
      total_fee := calculate_total_fee d }
  (row, { st with fee_structures := st.fee_structures ++ [row] })

/-- Write back the fee structure with primary key fid. -/
def setFeeStructure (l : List FeeStructureRow) (fid : ℕ) (fs : FeeStructureRow) :
    List FeeStructureRow :=
  l.map (fun f => if f.id == fid then fs else f)

/-- Embeds `FeeStructureResource.put` (app.py lines 769-799): 404 when the row
is absent; otherwise each field keeps its stored value unless supplied,
and total_fee is recomputed from the six updated components. -/
def feeStructurePut (st : Store) (fid : ℕ) (d : FeeData) :
    ApiResult FeeStructureRow × Store :=
  match st.fee_structures.find? (fun f => f.id == fid) with
  | none => (.notFound "Fee structure not found", st)
  | some fs =>
    let updated : FeeData :=
      { class_id := none,
        tuition_fee := some (d.tuition_fee.getD fs.tuition_fee),
        books_fee := some (d.books_fee.getD fs.books_fee),
        miscellaneous_fee := some (d.miscellaneous_fee.getD fs.miscellaneous_fee),
        boarding_fee := some (d.boarding_fee.getD fs.boarding_fee),
        prize_giving_fee := some (d.prize_giving_fee.getD fs.prize_giving_fee),
        exam_fee := some (d.exam_fee.getD fs.exam_fee) }
    let row : FeeStructureRow :=
      { id := fs.id, class_id := d.class_id.getD fs.class_id,
        tuition_fee := d.tuition_fee.getD fs.tuition_fee,
        books_fee := d.books_fee.getD fs.books_fee,
        miscellaneous_fee := d.miscellaneous_fee.getD fs.miscellaneous_fee,
        boarding_fee := d.boarding_fee.getD fs.boarding_fee,
        prize_giving_fee := d.prize_giving_fee.getD fs.prize_giving_fee,
        exam_fee := d.exam_fee.getD fs.exam_fee,
        total_fee := calculate_total_fee updated }
    (.ok row, { st with fee_structures := setFeeStructure st.fee_structures fid row })

/-
  Grading engine report (StudentReportResource.get, app.py lines 521-569).
-/

/-- One entry of the per-subject report list. -/
structure ReportEntry where
  subject_name : String
  score : Option ℚ
  max_score : ℚ
  grade : Option String
deriving DecidableEq

/-- The report payload returned on success. -/
structure Report where
  student_id : ℕ
  term : String
  year : ℤ
  average_percentage : Option ℚ
  average_grade : Option String
  subjects : List ReportEntry
deriving DecidableEq

/-- The rows fetched for the report: score_grades filtered on the
(student, term, year) triple, inner-joined to subjects — rows whose
subject_id is null or dangling are dropped by the join, as is any row
whose term or year is null (SQL null never equals the filter value). -/
def fetchScores (st : Store) (sid : ℕ) (tm : String) (yr : ℤ) :
    List (ScoreGradeRow × String) :=
  (st.score_grades.filter
      (fun g => g.student_id == sid && g.term == some tm && g.year == some yr)).filterMap
    (fun g =>
      match g.subject_id with
      | some subid =>
        (st.subjects.find? (fun sub => sub.id == subid)).map
          (fun sub => (g, sub.subject_name))
      | none => none)

/-- The loop body of the report: a row with non-null score and positive
max_score contributes its percentage and grade; every row contributes a
report entry. -/
def reportStep (acc : List ReportEntry × ℚ × ℕ) (x : ScoreGradeRow × String) :
    List ReportEntry × ℚ × ℕ :=
  match x.1.score with
  | some s =>
    if x.1.max_score > 0 then
      let percentage := s / x.1.max_score * 100
      (acc.1 ++ [{ subject_name := x.2, score := x.1.score,
                   max_score := x.1.max_score,
                   grade := calculate_grade (some percentage) }],
       acc.2.1 + percentage, acc.2.2 + 1)
    else
      (acc.1 ++ [{ subject_name := x.2, score := x.1.score,
                   max_score := x.1.max_score, grade := none }],
       acc.2.1, acc.2.2)
  | none =>
    (acc.1 ++ [{ subject_name := x.2, score := x.1.score,
                 max_score := x.1.max_score, grade := none }],
     acc.2.1, acc.2.2)

/-- Embeds `StudentReportResource.get`: 404 when no rows are fetched,
otherwise the accumulated entries with average_percentage =
total/count (null when count is 0) and average_grade derived from
it. -/
def studentReportGet (st : Store) (sid : ℕ) (tm : String) (yr : ℤ) :
    ApiResult Report :=
  let scores := fetchScores st sid tm yr
  if scores.isEmpty then .notFound "No scores found for the specified criteria"
  else
    let r := scores.foldl reportStep ([], 0, 0)
    let average_percentage : Option ℚ :=
      if r.2.2 > 0 then some (r.2.1 / (r.2.2 : ℚ)) else none
    .ok { student_id := sid, term := tm, year := yr,
          average_percentage := average_percentage,
          average_grade :=
            match average_percentage with
            | some a => calculate_grade (some a)
            | none => none,
          subjects := r.1 }

/-- Spec-side entry: grade is calculate_grade(100 * score / max_score)
exactly when score is non-null and max_score > 0, null otherwise. -/
def specEntry (x : ScoreGradeRow × String) : ReportEntry :=
  { subject_name := x.2, score := x.1.score, max_score := x.1.max_score,
    grade :=
      match x.1.score with
      | some s =>
        if x.1.max_score > 0 then calculate_grade (some (100 * s / x.1.max_score))
        else none
      | none => none }

/-- Spec-side list of the percentages included in the average: one per
row with non-null score and positive max_score. -/
def specPercents (l : List (ScoreGradeRow × String)) : List ℚ :=
  l.filterMap
    (fun x =>
      match x.1.score with
      | some s => if x.1.max_score > 0 then some (100 * s / x.1.max_score) else none
      | none => none)

/-- The six-component sum of a fee structure row. -/
def sumComponents (fs : FeeStructureRow) : ℚ :=
  fs.tuition_fee + fs.books_fee + fs.miscellaneous_fee + fs.boarding_fee +
    fs.prize_giving_fee + fs.exam_fee

/-- Claim C2: calculate_grand_total raises NoFeeStructure when no
FeeStructure row matches the class_id of the student (it never defaults to
zero); otherwise it returns the six-component sum, plus the
transport_fee of the assigned PickupLocation of the student when one is set
and plus nothing when none is set. -/
theorem grand_total_spec (st : Store) (student : StudentRow) :
    (st.fee_structures.find? (fun f => f.class_id == student.class_id) = none →
      calculate_grand_total st student = .error .noFeeStructure) ∧
    (∀ fs, st.fee_structures.find? (fun f => f.class_id == student.class_id) = some fs →
      (student.pickup_location_id = none →
        calculate_grand_total st student = .ok (sumComponents fs)) ∧
      (∀ pid pl, student.pickup_location_id = some pid → 0 < pid →
        st.pickup_locations.find? (fun p => p.id == pid) = some pl →
        calculate_grand_total st student = .ok (sumComponents fs + pl.transport_fee))) := by
  refine ⟨fun h => by simp [calculate_grand_total, h], fun fs hfs => ⟨?_, ?_⟩⟩
  · intro hp
    simp [calculate_grand_total, hfs, hp, sumComponents]
  · intro pid pl hp hpos hpl
    have hne : pid ≠ 0 := Nat.pos_iff_ne_zero.mp hpos
    simp [calculate_grand_total, hfs, hp, hne, hpl, sumComponents]

/-- Witness for C2: a class whose components sum to 10000 and a pickup
location with transport_fee 500 give a grand total of 10500. -/
def wClass : ClassRow := { id := 1, class_name := "Grade 1", teacher_id := none }

def wFeeStructure : FeeStructureRow :=
  { id := 1, class_id := 1, tuition_fee := 4000, books_fee := 2000,
    miscellaneous_fee := 1000, boarding_fee := 2000, prize_giving_fee := 500,
    exam_fee := 500, total_fee := 10000 }

def wPickup : PickupLocationRow :=
  { id := 1, location_name := "Town", transport_fee := 500 }

def wStudentBus : StudentRow :=
  { id := 2, name := "Ben", date_of_birth := "2014-05-01", gender := "M",
    date_of_admission := "2021-01-10", class_id := 1, nemis_no := none,
    assessment_no := none, pickup_location_id := some 1 }

def wStoreBus : Store :=
  { classes := [wClass], students := [wStudentBus], subjects := [],
    score_grades := [], fee_structures := [wFeeStructure],
    pickup_locations := [wPickup], fee_payments := [] }

theorem grand_total_spec_witness :
    calculate_grand_total wStoreBus wStudentBus = .ok (sumComponents wFeeStructure + 500) :=
  ((grand_total_spec wStoreBus wStudentBus).2 wFeeStructure
      (by norm_num [wStoreBus, wStudentBus, wFeeStructure, List.find?])).2 1 wPickup
    (by norm_num [wStudentBus]) (by norm_num)
    (by norm_num [wStoreBus, wPickup, List.find?])

/-- Claim C1: calculate_balance returns the grand total minus (prior
payments plus the new amount), and a successful POST stores exactly
that value as the balance snapshot of the created row. -/
theorem balance_snapshot (st : Store) (newId : ℕ) (d : FeePaymentPostRequest)
    (student : StudentRow) (gt : ℚ)
    (hs : st.students.find? (fun s => s.id == d.student_id) = some student)
    (hg : calculate_grand_total st student = .ok gt) :
    calculate_balance st student d.amount =
      .ok (gt - (totalPaid st student.id + d.amount)) ∧
    (∀ row st', feePaymentPost st newId d = (.ok row, st') →
      row.balance = gt - (totalPaid st student.id + d.amount) ∧
      st'.fee_payments = st.fee_payments ++ [row]) := by
  have hb : calculate_balance st student d.amount =
      .ok (gt - (totalPaid st student.id + d.amount)) := by
    simp [calculate_balance, hg]
  refine ⟨hb, ?_⟩
  intro row st' h
  simp only [feePaymentPost, hs, hb] at h
  rw [Prod.mk.injEq] at h
  obtain ⟨h1, h2⟩ := h
  rw [ApiResult.ok.injEq] at h1
  subst h1
  subst h2
  exact ⟨rfl, rfl⟩

/-- Concrete run for C1: components sum 10000, two successive payments
of 3000, stored balances 7000 then 4000. -/
def wStudent : StudentRow :=
  { id := 1, name := "Amina", date_of_birth := "2015-01-01", gender := "F",
    date_of_admission := "2020-01-01", class_id := 1, nemis_no := none,
    assessment_no := none, pickup_location_id := none }

def wStore0 : Store :=
  { classes := [wClass], students := [wStudent], subjects := [],
    score_grades := [], fee_structures := [wFeeStructure],
    pickup_locations := [], fee_payments := [] }

def wPay1 : FeePaymentPostRequest :=
  { student_id := 1, amount := 3000, payment_date := "2024-01-15",
    term := "T1", year := 2024, method := "cash" }

def wRow1 : FeePaymentRow :=
  { id := 1, student_id := 1, amount := 3000, payment_date := "2024-01-15",
    term := "T1", year := 2024, method := "cash", balance := 7000 }

def wStore1 : Store := { wStore0 with fee_payments := [wRow1] }

def wPay2 : FeePaymentPostRequest :=
  { student_id := 1, amount := 3000, payment_date := "2024-02-15",
    term := "T1", year := 2024, method := "cash" }

def wRow2 : FeePaymentRow :=
  { id := 2, student_id := 1, amount := 3000, payment_date := "2024-02-15",
    term := "T1", year := 2024, method := "cash", balance := 4000 }

/-- Witness for C1: the first stored balance is grand total 10000 minus
(0 prior + 3000) = 7000, and the second POST stores 4000. -/
theorem balance_snapshot_witness :
    wRow1.balance = 10000 - (totalPaid wStore0 1 + 3000) ∧
    feePaymentPost wStore0 1 wPay1 = (.ok wRow1, wStore1) ∧
    wRow1.balance = 7000 ∧
    (feePaymentPost wStore1 2 wPay2).1 = .ok wRow2 ∧
    wRow2.balance = 4000 :=
  ⟨((balance_snapshot wStore0 1 wPay1 wStudent 10000
      (by norm_num [wStore0, wStudent, wPay1, List.find?])
      (by norm_num [calculate_grand_total, wStore0, wStudent, wFeeStructure,
        List.find?])).2
      wRow1 wStore1
      (by norm_num [feePaymentPost, calculate_balance, calculate_grand_total, totalPaid,
        wStore0, wStudent, wPay1, wRow1, wStore1, wFeeStructure, List.find?])).1,
   by norm_num [feePaymentPost, calculate_balance, calculate_grand_total, totalPaid,
     wStore0, wStudent, wPay1, wRow1, wStore1, wFeeStructure, List.find?],
   by norm_num [wRow1],
   by norm_num [feePaymentPost, calculate_balance, calculate_grand_total, totalPaid,
     wStore0, wStore1, wStudent, wPay2, wRow1, wRow2, wFeeStructure, List.find?],
   by norm_num [wRow2]⟩

/-- Claim C4: every fee-structure create or update stores total_fee
equal to the sum of the six stored components (missing request
components default to 0.0); the computed total is invariant under
reordering of the component list and is 0.0 on the empty request. -/
theorem total_fee_recomputed :
    (∀ st newId cid d row st', feeStructurePost st newId cid d = (row, st') →
      row.total_fee = row.tuition_fee + row.books_fee + row.miscellaneous_fee +
        row.boarding_fee + row.prize_giving_fee + row.exam_fee ∧
      row ∈ st'.fee_structures) ∧
    (∀ st fid d row st', feeStructurePut st fid d = (.ok row, st') →
      row.total_fee = row.tuition_fee + row.books_fee + row.miscellaneous_fee +
        row.boarding_fee + row.prize_giving_fee + row.exam_fee ∧
      row ∈ st'.fee_structures) ∧
    (∀ d l, List.Perm l (componentList d) → l.sum = calculate_total_fee d) ∧
    calculate_total_fee FeeData.empty = 0 := by
  refine ⟨?_, ?_, ?_, by norm_num [calculate_total_fee, componentList, FeeData.empty]⟩
  · intro st newId cid d row st' h
    simp only [feeStructurePost] at h
    rw [Prod.mk.injEq] at h
    obtain ⟨h1, h2⟩ := h
    subst h1
    subst h2
    constructor
    · simp [calculate_total_fee, componentList]
      ring
    · simp
  · intro st fid d row st' h
    simp only [feeStructurePut] at h
    cases hf : st.fee_structures.find? (fun f => f.id == fid) with
    | none => rw [hf] at h; simp at h
    | some fs =>
      rw [hf] at h
      rw [Prod.mk.injEq] at h
      obtain ⟨h1, h2⟩ := h
      rw [ApiResult.ok.injEq] at h1
      subst h1
      subst h2
      constructor
      · simp [calculate_total_fee, componentList]
        ring
      · have hmem := List.find?_some hf
        have hin := List.mem_of_find?_eq_some hf
        simp only [setFeeStructure]
        refine List.mem_map.mpr ⟨fs, hin, ?_⟩
        simp [hmem]
  · intro d l hp
    rw [hp.sum_eq]
    rfl

/-- Witness for C4: a POST with components summing to 10000 stores
total_fee 10000, a reordered component list sums the same, and the
empty body totals 0. -/
def wFeeData : FeeData :=
  { class_id := some 1, tuition_fee := some 4000, books_fee := some 2000,
    miscellaneous_fee := some 1000, boarding_fee := some 2000,
    prize_giving_fee := some 500, exam_fee := some 500 }

theorem total_fee_recomputed_witness :
    wFeeStructure.total_fee = wFeeStructure.tuition_fee + wFeeStructure.books_fee +
      wFeeStructure.miscellaneous_fee + wFeeStructure.boarding_fee +
      wFeeStructure.prize_giving_fee + wFeeStructure.exam_fee ∧
    ([2000, 4000, 1000, 2000, 500, 500] : List ℚ).sum = calculate_total_fee wFeeData :=
  ⟨(total_fee_recomputed.1 wStore0 1 1 wFeeData wFeeStructure
      { wStore0 with fee_structures := wStore0.fee_structures ++ [wFeeStructure] }
      (by norm_num [feeStructurePost, calculate_total_fee, componentList,
        wStore0, wFeeData, wFeeStructure])).1,
   total_fee_recomputed.2.2.1 wFeeData _
     (List.Perm.swap 4000 2000 [1000, 2000, 500, 500])⟩

/-- Claim C8: after a successful student delete, no ScoreGrade row and
no FeePayment row referencing the id of that student remains. -/
theorem student_delete_cascade (st : Store) (sid : ℕ) (msg : String) (st' : Store)
    (h : studentDelete st sid = (.ok msg, st')) :
    st'.score_grades.filter (fun g => g.student_id == sid) = [] ∧
    st'.fee_payments.filter (fun p => p.student_id == sid) = [] := by
  simp only [studentDelete] at h
  cases hf : st.students.find? (fun s => s.id == sid) with
  | none => rw [hf] at h; simp at h
  | some s0 =>
    rw [hf] at h
    rw [Prod.mk.injEq] at h
    obtain ⟨h1, h2⟩ := h
    subst h2
    constructor <;>
      simp [List.filter_filter]

/-- Witness for C8: deleting student 1 from a store holding one of its
scores and one of its payments leaves both filters empty. -/
def wScoreRow : ScoreGradeRow :=
  { id := 1, student_id := 1, subject_id := some 1, test_id := none,
    score := some 78, max_score := 100, term := some "T1", year := some 2024 }

def wSubject : SubjectRow := { id := 1, subject_name := "Mathematics" }

def wStoreFull : Store :=
  { classes := [wClass], students := [wStudent], subjects := [wSubject],
    score_grades := [wScoreRow], fee_structures := [wFeeStructure],
    pickup_locations := [], fee_payments := [wRow1] }

theorem student_delete_cascade_witness :
    (studentDelete wStoreFull 1).2.score_grades.filter (fun g => g.student_id == 1) = [] ∧
    (studentDelete wStoreFull 1).2.fee_payments.filter (fun p => p.student_id == 1) = [] :=
  student_delete_cascade wStoreFull 1 "Student deleted successfully"
    (studentDelete wStoreFull 1).2
    (by norm_num [studentDelete, wStoreFull, wStudent, List.find?])

/-- Agreement of two fee-structure rows on everything except the stored
total_fee column. -/
def fsAgree (f g : FeeStructureRow) : Prop :=
  f.id = g.id ∧ f.class_id = g.class_id ∧ f.tuition_fee = g.tuition_fee ∧
  f.books_fee = g.books_fee ∧ f.miscellaneous_fee = g.miscellaneous_fee ∧
  f.boarding_fee = g.boarding_fee ∧ f.prize_giving_fee = g.prize_giving_fee ∧
  f.exam_fee = g.exam_fee

/-- Two stores that differ at most in stored total_fee values. -/
def agreeExceptTotalFee (s t : Store) : Prop :=
  s.classes = t.classes ∧ s.students = t.students ∧ s.subjects = t.subjects ∧
  s.score_grades = t.score_grades ∧ s.pickup_locations = t.pickup_locations ∧
  s.fee_payments = t.fee_payments ∧
  List.Forall₂ fsAgree s.fee_structures t.fee_structures

lemma find_fsAgree {l m : List FeeStructureRow} (h : List.Forall₂ fsAgree l m) (cid : ℕ) :
    (l.find? (fun f => f.class_id == cid) = none ∧
     m.find? (fun f => f.class_id == cid) = none) ∨
    (∃ f g, l.find? (fun f => f.class_id == cid) = some f ∧
      m.find? (fun f => f.class_id == cid) = some g ∧ fsAgree f g) := by
  induction h with
  | nil => left; exact ⟨rfl, rfl⟩
  | cons hfg hrest ih =>
    rename_i f g l2 m2
    by_cases hc : f.class_id == cid
    · right
      have hc2 : g.class_id == cid := by
        rw [← hfg.2.1]
        exact hc
      exact ⟨f, g, by simp [List.find?_cons, hc], by simp [List.find?_cons, hc2], hfg⟩
    · have hc2 : ¬(g.class_id == cid) = true := by
        rw [← hfg.2.1]
        exact hc
      rcases ih with ⟨h1, h2⟩ | ⟨f2, g2, h1, h2, h3⟩
      · left
        constructor <;> simp [List.find?_cons, hc, hc2, h1, h2]
      · right
        exact ⟨f2, g2, by simp [List.find?_cons, hc, h1], by simp [List.find?_cons, hc2, h2], h3⟩

/-- Claim C9: calculate_grand_total never reads the stored total_fee
column, so two stores differing only in total_fee values (e.g. a stale
cache) give identical grand totals and identical balances for every
student and payment amount. -/
theorem grand_total_ignores_stored_total (s t : Store) (student : StudentRow) (a : ℚ)
    (h : agreeExceptTotalFee s t) :
    calculate_grand_total s student = calculate_grand_total t student ∧
    calculate_balance s student a = calculate_balance t student a := by
  obtain ⟨hc, hs, hsub, hsg, hpl, hfp, hfs⟩ := h
  have hgt : calculate_grand_total s student = calculate_grand_total t student := by
    rcases find_fsAgree hfs student.class_id with ⟨h1, h2⟩ | ⟨f, g, h1, h2, h3⟩
    · simp [calculate_grand_total, h1, h2]
    · obtain ⟨e1, e2, e3, e4, e5, e6, e7, e8⟩ := h3
      simp only [calculate_grand_total, h1, h2, e3, e4, e5, e6, e7, e8, hpl]
  refine ⟨hgt, ?_⟩
  have hpaid : totalPaid s student.id = totalPaid t student.id := by
    simp [totalPaid, hfp]
  simp only [calculate_balance, hgt, hpaid]

/-- Witness for C9: wStore0 with its total_fee corrupted to 999999
yields the same grand total and balance as wStore0. -/
def wStoreStale : Store :=
  { wStore0 with fee_structures := [{ wFeeStructure with total_fee := 999999 }] }

theorem grand_total_ignores_stored_total_witness :
    calculate_grand_total wStore0 wStudent = calculate_grand_total wStoreStale wStudent ∧
    calculate_balance wStore0 wStudent 3000 = calculate_balance wStoreStale wStudent 3000 :=
  grand_total_ignores_stored_total wStore0 wStoreStale wStudent 3000
    (by
      refine ⟨rfl, rfl, rfl, rfl, rfl, rfl, ?_⟩
      exact List.Forall₂.cons ⟨rfl, rfl, rfl, rfl, rfl, rfl, rfl, rfl⟩ List.Forall₂.nil)

/-- Claim C10: a fee-payment delete removes exactly the matched row:
every other table is untouched, every surviving FeePayment row (with
its stored balance snapshot) is one of the old rows, and a successful
response carries the balance freshly computed over the remaining rows
without writing it anywhere. -/
theorem payment_delete_frame (st : Store) (pid : ℕ) (fp : FeePaymentRow)
    (hf : st.fee_payments.find? (fun p => p.id == pid) = some fp) :
    (feePaymentDelete st pid).2.fee_payments =
      st.fee_payments.eraseP (fun p => p.id == pid) ∧
    (feePaymentDelete st pid).2.classes = st.classes ∧
    (feePaymentDelete st pid).2.students = st.students ∧
    (feePaymentDelete st pid).2.subjects = st.subjects ∧
    (feePaymentDelete st pid).2.score_grades = st.score_grades ∧
    (feePaymentDelete st pid).2.fee_structures = st.fee_structures ∧
    (feePaymentDelete st pid).2.pickup_locations = st.pickup_locations ∧
    (∀ p, p ∈ (feePaymentDelete st pid).2.fee_payments → p ∈ st.fee_payments) ∧
    (∀ b, (feePaymentDelete st pid).1 = .ok b →
      ∃ student, st.students.find? (fun s => s.id == fp.student_id) = some student ∧
        calculate_balance (feePaymentDelete st pid).2 student 0 = .ok b) := by
  have hsub : ∀ p, p ∈ st.fee_payments.eraseP (fun p => p.id == pid) →
      p ∈ st.fee_payments :=
    fun p hp => (List.eraseP_sublist st.fee_payments).subset hp
  simp only [feePaymentDelete, hf]
  split
  · exact ⟨rfl, rfl, rfl, rfl, rfl, rfl, rfl, hsub, fun b hb => absurd hb (by simp)⟩
  · rename_i student hstu
    split
    · exact ⟨rfl, rfl, rfl, rfl, rfl, rfl, rfl, hsub, fun b hb => absurd hb (by simp)⟩
    · rename_i b0 hbal
      refine ⟨rfl, rfl, rfl, rfl, rfl, rfl, rfl, hsub, ?_⟩
      intro b hb
      rw [ApiResult.ok.injEq] at hb
      subst hb
      exact ⟨student, hstu, hbal⟩

/-- Witness for C10: deleting payment 1 from the full store leaves the
other tables intact and returns the recomputed balance. -/
theorem payment_delete_frame_witness :
    (feePaymentDelete wStoreFull 1).2.fee_payments =
      wStoreFull.fee_payments.eraseP (fun p => p.id == 1) ∧
    (feePaymentDelete wStoreFull 1).2.students = wStoreFull.students :=
  ⟨(payment_delete_frame wStoreFull 1 wRow1
      (by norm_num [wStoreFull, wRow1, List.find?])).1,
   (payment_delete_frame wStoreFull 1 wRow1
      (by norm_num [wStoreFull, wRow1, List.find?])).2.2.1⟩

/-- A store whose class has no fee structure but already holds a
payment row: the configuration under which put and delete hit the
ValueError after their first commit. -/
def cexStore : Store :=
  { classes := [wClass], students := [wStudent], subjects := [],
    score_grades := [], fee_structures := [], pickup_locations := [],
    fee_payments := [wRow1] }

/-- A put request changing only the amount. -/
def cexPutReq : FeePaymentPutRequest :=
  { amount := some 500, payment_date := none, term := none, year := none,
    method := none }

/-- Counterexample to C6 as stated: updating payment 1 in cexStore
fails with the NoFeeStructure message, yet the resulting store differs
from the initial one — the amount update was committed before the
failing balance recomputation. -/
theorem fee_error_mutates_state :
    (feePaymentPut cexStore 1 cexPutReq).1 =
      .badRequest (FeeError.message .noFeeStructure) ∧
    (feePaymentPut cexStore 1 cexPutReq).2 ≠ cexStore := by
  constructor <;>
    norm_num [feePaymentPut, updatePayment, setPayment, calculate_balance,
      calculate_grand_total, totalPaid, FeeError.message, cexStore, cexPutReq,
      wRow1, wStudent, wClass, List.find?]

/-- Claim C6 amended: a failing create leaves the store untouched, and
the not-found checks of update and delete leave it untouched; but when
update or delete fails with NoFeeStructure during balance
recomputation, the field update (resp. the row removal) has already
been committed — only the balance write is skipped. -/
theorem fee_error_paths (st : Store) (newId pid : ℕ) (d : FeePaymentPostRequest)
    (dp : FeePaymentPutRequest) :
    (∀ r st', feePaymentPost st newId d = (r, st') →
      (∀ row, r ≠ .ok row) → st' = st) ∧
    (∀ m st', feePaymentPut st pid dp = (.notFound m, st') → st' = st) ∧
    (∀ m st', feePaymentDelete st pid = (.notFound m, st') → st' = st) ∧
    (∀ fp m st', st.fee_payments.find? (fun p => p.id == pid) = some fp →
      feePaymentPut st pid dp = (.badRequest m, st') →
      st' = { st with
              fee_payments := setPayment st.fee_payments pid (updatePayment fp dp) } ∧
      (updatePayment fp dp).balance = fp.balance) ∧
    (∀ fp m st', st.fee_payments.find? (fun p => p.id == pid) = some fp →
      feePaymentDelete st pid = (.badRequest m, st') →
      st' = { st with
              fee_payments := st.fee_payments.eraseP (fun p => p.id == pid) }) := by
  refine ⟨?_, ?_, ?_, ?_, ?_⟩
  · intro r st' h hr
    simp only [feePaymentPost] at h
    split at h
    · rw [Prod.mk.injEq] at h
      exact h.2.symm
    · split at h
      · rw [Prod.mk.injEq] at h
        exact h.2.symm
      · rw [Prod.mk.injEq] at h
        exact absurd h.1.symm (hr _)
  · intro m st' h
    simp only [feePaymentPut] at h
    split at h
    · rw [Prod.mk.injEq] at h
      exact h.2.symm
    · split at h
      · exact absurd h (by simp)
      · split at h
        · exact absurd h (by simp)
        · exact absurd h (by simp)
  · intro m st' h
    simp only [feePaymentDelete] at h
    split at h
    · rw [Prod.mk.injEq] at h
      exact h.2.symm
    · split at h
      · exact absurd h (by simp)
      · split at h
        · exact absurd h (by simp)
        · exact absurd h (by simp)
  · intro fp m st' hf h
    simp only [feePaymentPut, hf] at h
    split at h
    · exact absurd h (by simp)
    · split at h
      · rw [Prod.mk.injEq] at h
        exact ⟨h.2.symm, rfl⟩
      · exact absurd h (by simp)
  · intro fp m st' hf h
    simp only [feePaymentDelete, hf] at h
    split at h
    · exact absurd h (by simp)
    · split at h
      · rw [Prod.mk.injEq] at h
        exact h.2.symm
      · exact absurd h (by simp)

/-- Witness for the amended C6: the failing update of cexStore ends in
exactly the store with the committed field update, and the skipped
balance write means the updated row keeps its old balance. -/
theorem fee_error_paths_witness :
    (feePaymentPut cexStore 1 cexPutReq).2 =
      { cexStore with
        fee_payments := setPayment cexStore.fee_payments 1 (updatePayment wRow1 cexPutReq) } ∧
    (updatePayment wRow1 cexPutReq).balance = wRow1.balance :=
  (fee_error_paths cexStore 1 1 wPay1 cexPutReq).2.2.2.1 wRow1
    (FeeError.message .noFeeStructure) (feePaymentPut cexStore 1 cexPutReq).2
    (by norm_num [cexStore, wRow1, List.find?])
    (by norm_num [feePaymentPut, updatePayment, setPayment, calculate_balance,
      calculate_grand_total, totalPaid, FeeError.message, cexStore, cexPutReq,
      wRow1, wStudent, wClass, List.find?])

lemma report_foldl (l : List (ScoreGradeRow × String)) (r0 : List ReportEntry)
    (t0 : ℚ) (c0 : ℕ) :
    l.foldl reportStep (r0, t0, c0) =
      (r0 ++ l.map specEntry, t0 + (specPercents l).sum,
       c0 + (specPercents l).length) := by
  induction l generalizing r0 t0 c0 with
  | nil => simp [specPercents]
  | cons a l ih =>
    rw [List.foldl_cons, ih]
    cases hsc : a.1.score with
    | none =>
      simp [reportStep, hsc, specEntry, specPercents]
    | some s =>
      by_cases hm : a.1.max_score > 0
      · have hpct : s / a.1.max_score * 100 = 100 * s / a.1.max_score := by
          ring
        simp only [reportStep, hsc, hm, if_pos, specEntry, specPercents,
          List.filterMap_cons, List.map_cons, hpct]
        refine Prod.ext ?_ (Prod.ext ?_ ?_) <;> simp [add_assoc]
        omega
      · simp [reportStep, hsc, hm, specEntry, specPercents]

/-- Claim C5: for a (student, term, year) triple, the report lists one
entry per fetched row, grades exactly the rows with non-null score and
positive max_score by calculate_grade(100 * score / max_score), and
averages exactly the percentages of those rows (null average when none
qualifies); an empty fetch yields NotFound. -/
theorem report_spec (st : Store) (sid : ℕ) (tm : String) (yr : ℤ) :
    (fetchScores st sid tm yr = [] →
      studentReportGet st sid tm yr =
        .notFound "No scores found for the specified criteria") ∧
    (∀ rep, studentReportGet st sid tm yr = .ok rep →
      rep.subjects = (fetchScores st sid tm yr).map specEntry ∧
      rep.average_percentage =
        (if (specPercents (fetchScores st sid tm yr)).length > 0
         then some ((specPercents (fetchScores st sid tm yr)).sum /
                    ((specPercents (fetchScores st sid tm yr)).length : ℚ))
         else none) ∧
      rep.average_grade = calculate_grade rep.average_percentage) := by
  constructor
  · intro h
    simp [studentReportGet, h]
  · intro rep h
    simp only [studentReportGet] at h
    cases hne : (fetchScores st sid tm yr).isEmpty with
    | true => rw [hne] at h; simp at h
    | false =>
      rw [hne] at h
      simp only [Bool.false_eq_true, if_false, report_foldl, List.nil_append,
        zero_add, Nat.zero_add] at h
      rw [ApiResult.ok.injEq] at h
      subst h
      refine ⟨rfl, rfl, ?_⟩
      by_cases hl : (specPercents (fetchScores st sid tm yr)).length > 0
      · simp [hl]
      · simp [hl, calculate_grade]

/-- Concrete report for C5: scores 78/100 and 52/100 give grades A-
and C, average 65 and average grade B. -/
def wSubjectEng : SubjectRow := { id := 2, subject_name := "English" }

def wScoreRow2 : ScoreGradeRow :=
  { id := 2, student_id := 1, subject_id := some 2, test_id := none,
    score := some 52, max_score := 100, term := some "T1", year := some 2024 }

def wStoreRep : Store :=
  { classes := [wClass], students := [wStudent],
    subjects := [wSubject, wSubjectEng],
    score_grades := [wScoreRow, wScoreRow2], fee_structures := [wFeeStructure],
    pickup_locations := [], fee_payments := [] }

def wReport : Report :=
  { student_id := 1, term := "T1", year := 2024,
    average_percentage := some 65, average_grade := some "B",
    subjects :=
      [{ subject_name := "Mathematics", score := some 78, max_score := 100,
         grade := some "A-" },
       { subject_name := "English", score := some 52, max_score := 100,
         grade := some "C" }] }

/-- Witness for C5: the concrete report of wStoreRep satisfies the
three clauses, with average percentage 65 and average grade B. -/
theorem report_spec_witness :
    wReport.subjects = (fetchScores wStoreRep 1 "T1" 2024).map specEntry ∧
    wReport.average_percentage = some 65 ∧
    wReport.average_grade = calculate_grade wReport.average_percentage :=
  have h := (report_spec wStoreRep 1 "T1" 2024).2 wReport
    (by norm_num [studentReportGet, fetchScores, reportStep, calculate_grade,
      wStoreRep, wScoreRow, wScoreRow2, wSubject, wSubjectEng, wStudent, wClass,
      wReport, List.filterMap_cons])
  ⟨h.1, rfl, h.2.2⟩

end SchoolBack
